import Mathlib

/-!
Shallow embedding of `vacuumTubeMenorah.ino` (9-candle WS2812 menorah firmware).

Modelling conventions:
* A digital pin level is `Level` (`LOW`/`HIGH`); a `digitalRead` environment is a
  function `Nat → Level` from pin number to the level read on this call.
* Arduino `random(lo, hi)` is modelled by `arduinoRandomRange` over a stream of raw
  pseudo-random draws `rng : Nat → Nat` consumed at increasing indices, following the
  Arduino core: `random(howBig)` is `random() % howBig` (0 when `howBig = 0`) and
  `random(lo, hi)` returns `lo` when `lo ≥ hi`, else `lo + random(hi - lo)`.
  All drawn values are small and non-negative, so `Nat` arithmetic is exact.
* C `int`/`long` fields that can go negative (the flicker RGB channels before
  clamping, the countdown after decrements) are `Int`.
* The Adafruit_NeoPixel strip is external; we record the arguments of each
  `setPixelColor` call.  In flicker mode the call is
  `setPixelColor(i, green, red, blue)`, recorded as `Pixel.mk green red blue`
  (the three colour arguments in call order); `setPixelColor(i, 0)` is
  `Pixel.mk 0 0 0`.  In rainbow mode the pushed colour is
  `gamma32(ColorHSV(pixelHue))`, an external pure function of the hue argument;
  since no property depends on the colour encoding we record `some pixelHue`
  (or `none` for an off pixel).
-/

namespace Menorah

/-- A digital logic level, the result of `digitalRead`. -/
inductive Level where
  | LOW
  | HIGH
deriving DecidableEq, Repr

/-- `#define LED_COUNT 9` -/
def LED_COUNT : Nat := 9

/-- `#define MODE_PIN 8` -/
def MODE_PIN : Nat := 8

/-- `#define flickerStartRed 255` -/
def flickerStartRed : Int := 255

/-- `#define flickerStartGreen 96` -/
def flickerStartGreen : Int := 96

/-- `#define flickerStartBlue 12` -/
def flickerStartBlue : Int := 12

/-- `#define flickerDelayHigh 50` -/
def flickerDelayHigh : Nat := 50

/-- `#define flickerDelayLow 50` -/
def flickerDelayLow : Nat := 50

/-- `#define flickerFlickerHigh 40` -/
def flickerFlickerHigh : Nat := 40

/-- `#define flickerFlickerLow 0` -/
def flickerFlickerLow : Nat := 0

/-- Arduino analog pin `A0` on an ATmega328-based board (Pro Mini) is pin 14. -/
def A0 : Nat := 14

/-- The `candleLed` struct: strip order, input pin, and switch state. -/
structure CandleLed where
  order : Nat
  pin : Nat
  state : Bool
deriving DecidableEq, Repr, Inhabited

/-- The `candleFlicker` struct: colour channels, countdown, jitter, elapsed time. -/
structure FlickerLed where
  red : Int
  green : Int
  blue : Int
  delay : Int
  flicker : Int
  time : Int
deriving DecidableEq, Repr, Inhabited

/-- Arguments of a `setPixelColor` call, in call order.  In flicker mode the code
calls `setPixelColor(i, green, red, blue)`, so `c1` holds the green channel. -/
structure Pixel where
  c1 : Int
  c2 : Int
  c3 : Int
deriving DecidableEq, Repr, Inhabited

/-- The firmware's mutable globals: the `candles` array, the `mode` flag
(`uint8_t`, 0 = flicker, 1 = rainbow), and the `flickers` array. -/
structure MenorahState where
  candles : List CandleLed
  mode : Nat
  flickers : List FlickerLed
deriving DecidableEq, Repr

/-- The static initializer of `candles[LED_COUNT]`. -/
def initialCandles : List CandleLed :=
  [ ⟨0, A0, false⟩, ⟨1, 6, false⟩, ⟨2, 12, false⟩, ⟨3, 11, false⟩, ⟨4, 10, false⟩,
    ⟨5, 2, false⟩, ⟨6, 3, false⟩, ⟨7, 4, false⟩, ⟨8, 5, false⟩ ]

/-- The static initializer of `flickers[LED_COUNT]`: colour defaults with zero
delay and flicker; the `time` field is zero-filled by C aggregate initialization. -/
def initialFlickers : List FlickerLed :=
  List.replicate LED_COUNT
    ⟨flickerStartRed, flickerStartGreen, flickerStartBlue, 0, 0, 0⟩

/-- The global state at startup (`mode = 0`). -/
def initialState : MenorahState :=
  ⟨initialCandles, 0, initialFlickers⟩

/-- Arduino `random(howBig)` applied to one raw draw: `raw % howBig`, or 0 when
`howBig = 0`. -/
def arduinoRandom (raw : Nat) (howBig : Nat) : Nat :=
  if howBig = 0 then 0 else raw % howBig

/-- Arduino `random(howSmall, howBig)`: returns `howSmall` when the range is
empty, else `howSmall + random(howBig - howSmall)`. -/
def arduinoRandomRange (raw : Nat) (howSmall howBig : Nat) : Nat :=
  if howBig ≤ howSmall then howSmall
  else howSmall + arduinoRandom raw (howBig - howSmall)

/-- Lines 167-170 of `readSwitches`, per candle: the state is assigned from the
pin read (`digitalRead(pin) == LOW`) and then unconditionally reassigned `true`
on the next line of the source. -/
def readCandleState (read : Nat → Level) (c : CandleLed) : CandleLed :=
  let c1 := { c with state := read c.pin = Level.LOW }
  { c1 with state := true }

/-- `readSwitches()`: updates every candle's `state`, reads the mode pin and
toggles `mode` when the pin level disagrees with the current mode, returning
`true` exactly when the mode changed. -/
def readSwitches (read : Nat → Level) (s : MenorahState) : MenorahState × Bool :=
  let candles := s.candles.map (readCandleState read)
  let modeButtonState := read MODE_PIN
  if (modeButtonState = Level.LOW ∧ s.mode = 0) ∨
     (modeButtonState = Level.HIGH ∧ s.mode = 1) then
    ({ candles := candles, mode := if s.mode = 1 then 0 else 1, flickers := s.flickers },
     true)
  else
    ({ candles := candles, mode := s.mode, flickers := s.flickers }, false)

/-- The state after one `readSwitches` call (discarding the returned boolean). -/
def readSwitchesState (read : Nat → Level) (s : MenorahState) : MenorahState :=
  (readSwitches read s).1

/-- The state after a sequence of `readSwitches` calls, call `t` seeing the
pin-level environment `reads t`. -/
def readSwitchesSeq (reads : Nat → Nat → Level) (s : MenorahState) : Nat → MenorahState
  | 0 => s
  | n + 1 => readSwitchesState (reads n) (readSwitchesSeq reads s n)

/-- The flicker magnitude drawn at rng index `k + 1`
(`random(flickerFlickerLow, flickerFlickerHigh)`), as the `int` it is stored in. -/
def flickerMag (rng : Nat → Nat) (k : Nat) : Int :=
  (arduinoRandomRange (rng (k + 1)) flickerFlickerLow flickerFlickerHigh : Nat)

/-- Lines 210-224 of `flicker()`: when the countdown has run out, draw a new
delay and flicker magnitude (consuming `rng k` and `rng (k+1)`), recompute the
RGB channels from the start values minus the magnitude, and clamp each channel
at zero.  Returns the updated `candleFlicker` and the next unused rng index. -/
def flickerStep (rng : Nat → Nat) (k : Nat) (f : FlickerLed) : FlickerLed × Nat :=
  if f.delay ≤ 0 then
    let d : Int := arduinoRandomRange (rng k) flickerDelayLow flickerDelayHigh
    let fl : Int := arduinoRandomRange (rng (k + 1)) flickerFlickerLow flickerFlickerHigh
    let r := flickerStartRed - fl
    let g := flickerStartGreen - fl
    let b := flickerStartBlue - fl
    let r := if r < 0 then 0 else r
    let g := if g < 0 then 0 else g
    let b := if b < 0 then 0 else b
    ({ red := r, green := g, blue := b, delay := d, flicker := fl, time := f.time }, k + 2)
  else (f, k)

/-- Lines 210-234 of `flicker()`, the loop body for one LED: the conditional
reset, the `setPixelColor` call (colour `(green, red, blue)` when the candle's
switch state is on, otherwise off), and the countdown decrement. -/
def flickerLedTick (st : Bool) (rng : Nat → Nat) (k : Nat) (f : FlickerLed) :
    FlickerLed × Pixel × Nat :=
  let f1 := (flickerStep rng k f).1
  let k1 := (flickerStep rng k f).2
  let px := if st then Pixel.mk f1.green f1.red f1.blue else Pixel.mk 0 0 0
  ({ f1 with delay := f1.delay - 1 }, px, k1)

/-- The `for` loop of `flicker()` over all LEDs, threading the rng index. -/
def flickerCandles (rng : Nat → Nat) :
    Nat → List (Bool × FlickerLed) → List FlickerLed × List Pixel
  | _, [] => ([], [])
  | k, (st, f) :: rest =>
      let t := flickerLedTick st rng k f
      let r := flickerCandles rng t.2.2 rest
      (t.1 :: r.1, t.2.1 :: r.2)

/-- One throttled tick of `flicker()` (the body of the `if` at line 198, which
runs when more than one millisecond has elapsed): call `readSwitches`, update
every flicker candle, and flush the frame.  Returns the new global state and
the list of pixels pushed to the strip before the `strip.show()` flush. -/
def flickerTick (read : Nat → Level) (rng : Nat → Nat) (s : MenorahState) :
    MenorahState × List Pixel :=
  let s1 := (readSwitches read s).1
  let r := flickerCandles rng 0 ((s1.candles.map (·.state)).zip s1.flickers)
  ({ s1 with flickers := r.1 }, r.2)

/-- `strip.numPixels()` for this strip. -/
def numPixels : Nat := LED_COUNT

/-- Line 252: `int pixelHue = firstPixelHue + (i * 65536L / strip.numPixels())`.
All values are non-negative and well inside `long` range, so `Nat` is exact
(C integer division of non-negative operands is floor division). -/
def rainbowPixelHue (firstPixelHue : Nat) (i : Nat) : Nat :=
  firstPixelHue + i * 65536 / numPixels

/-- Lines 250-259: one rainbow frame.  Entry `i` records the `setPixelColor`
argument for LED `i`: `some pixelHue` standing for
`gamma32(ColorHSV(pixelHue))` when the candle is on, `none` for off. -/
def rainbowFrame (s : MenorahState) (firstPixelHue : Nat) : List (Option Nat) :=
  (List.range numPixels).map fun i =>
    if (s.candles.getD i default).state then some (rainbowPixelHue firstPixelHue i)
    else none

/-- The `for` loop of `rainbow()`: `firstPixelHue` runs over `256 * k` for
`k = 0, 1, ...` while `256 * k < 5 * 65536`, i.e. for exactly `1280` values, so
the loop is structured as `fuel` remaining iterations starting at step `k`.
`reads k` is the pin-level environment seen by the `readSwitches` call of step
`k`.  Returns the final state, the frames flushed in order, and whether the
sweep was aborted by a mode change. -/
def rainbowRun (reads : Nat → Nat → Level) :
    Nat → Nat → MenorahState → MenorahState × List (List (Option Nat)) × Bool
  | 0, _, s => (s, [], false)
  | fuel + 1, k, s =>
      let s1 := (readSwitches (reads k) s).1
      if (readSwitches (reads k) s).2 then (s1, [], true)
      else
        let r := rainbowRun reads fuel (k + 1) s1
        (r.1, rainbowFrame s1 (256 * k) :: r.2.1, r.2.2)

/-- `rainbow(wait)`: the full sweep, `5 * 65536 / 256 = 1280` hue steps.  The
`wait` delay has no effect on the computed frames and is omitted. -/
def rainbow (reads : Nat → Nat → Level) (s : MenorahState) :
    MenorahState × List (List (Option Nat)) × Bool :=
  rainbowRun reads 1280 0 s

/-! ## Helper lemmas -/

lemma arduinoRandomRange_delay_eq (raw : Nat) :
    arduinoRandomRange raw flickerDelayLow flickerDelayHigh = 50 := by
  simp [arduinoRandomRange, flickerDelayLow, flickerDelayHigh]

lemma arduinoRandomRange_mag_lt (raw : Nat) :
    arduinoRandomRange raw flickerFlickerLow flickerFlickerHigh < 40 := by
  simp [arduinoRandomRange, arduinoRandom, flickerFlickerLow, flickerFlickerHigh]
  omega

lemma flickerMag_lt (rng : Nat → Nat) (k : Nat) : flickerMag rng k < 40 := by
  unfold flickerMag
  exact_mod_cast arduinoRandomRange_mag_lt (rng (k + 1))

lemma flickerMag_nonneg (rng : Nat → Nat) (k : Nat) : 0 ≤ flickerMag rng k :=
  Int.natCast_nonneg _

/-- Field-by-field description of a flicker reset (`flickerStep` when the
countdown has run out). -/
lemma flickerStep_reset (rng : Nat → Nat) (k : Nat) (f : FlickerLed) (h : f.delay ≤ 0) :
    (flickerStep rng k f).1.red = flickerStartRed - flickerMag rng k ∧
    (flickerStep rng k f).1.green = flickerStartGreen - flickerMag rng k ∧
    (flickerStep rng k f).1.blue = max 0 (flickerStartBlue - flickerMag rng k) ∧
    (flickerStep rng k f).1.delay = 50 ∧
    (flickerStep rng k f).1.flicker = flickerMag rng k ∧
    (flickerStep rng k f).1.time = f.time := by
  have hlt := flickerMag_lt rng k
  have hnn := flickerMag_nonneg rng k
  unfold flickerMag at hlt hnn
  simp only [flickerStep, if_pos h, arduinoRandomRange_delay_eq, flickerMag]
  refine ⟨?_, ?_, ?_, ?_, ?_, ?_⟩ <;>
    (try simp only [flickerStartRed, flickerStartGreen, flickerStartBlue]) <;>
    first
      | rfl
      | (split <;> omega)

/-- After a `readSwitches` call that saw mode-pin level `v`, the mode can no
longer be in the position that level toggles away from. -/
def modeSettled (v : Level) (m : Nat) : Prop :=
  (v = Level.LOW → m ≠ 0) ∧ (v = Level.HIGH → m ≠ 1)

lemma mode_settled_after (read : Nat → Level) (s : MenorahState) :
    modeSettled (read MODE_PIN) (readSwitchesState read s).mode := by
  unfold modeSettled readSwitchesState readSwitches
  cases hL : read MODE_PIN <;> by_cases hm0 : s.mode = 0 <;> by_cases hm1 : s.mode = 1 <;>
    simp_all

lemma readSwitches_settled (read : Nat → Level) (s : MenorahState)
    (h : modeSettled (read MODE_PIN) s.mode) :
    (readSwitches read s).2 = false ∧ (readSwitches read s).1.mode = s.mode := by
  obtain ⟨h1, h2⟩ := h
  unfold readSwitches
  cases hL : read MODE_PIN <;> simp_all

lemma readSwitches_changed_mode (read : Nat → Level) (s : MenorahState)
    (h : (readSwitches read s).2 = true) :
    (readSwitches read s).1.mode = if s.mode = 1 then 0 else 1 := by
  unfold readSwitches at h ⊢
  cases hL : read MODE_PIN <;> by_cases hm0 : s.mode = 0 <;> by_cases hm1 : s.mode = 1 <;>
    simp_all

lemma readSwitches_unchanged_mode (read : Nat → Level) (s : MenorahState)
    (h : (readSwitches read s).2 = false) :
    (readSwitches read s).1.mode = s.mode := by
  unfold readSwitches at h ⊢
  cases hL : read MODE_PIN <;> by_cases hm0 : s.mode = 0 <;> by_cases hm1 : s.mode = 1 <;>
    simp_all

lemma rainbowRun_no_abort_length (reads : Nat → Nat → Level) :
    ∀ (fuel k : Nat) (s : MenorahState),
      (rainbowRun reads fuel k s).2.2 = false →
      (rainbowRun reads fuel k s).2.1.length = fuel := by
  intro fuel
  induction fuel with
  | zero => intro k s _; rfl
  | succ n ih =>
      intro k s h
      by_cases hc : (readSwitches (reads k) s).2 = true
      · simp only [rainbowRun, if_pos hc] at h
        exact absurd h (by simp)
      · simp only [rainbowRun, if_neg hc] at h ⊢
        rw [List.length_cons, ih (k + 1) _ h]

lemma rainbowRun_abort_facts (reads : Nat → Nat → Level) :
    ∀ (fuel k : Nat) (s : MenorahState), s.mode = 0 ∨ s.mode = 1 →
      (rainbowRun reads fuel k s).2.2 = true →
      (rainbowRun reads fuel k s).2.1.length < fuel ∧
      (rainbowRun reads fuel k s).1.mode = 1 - s.mode := by
  intro fuel
  induction fuel with
  | zero => intro k s hm h; exact absurd h (by simp [rainbowRun])
  | succ n ih =>
      intro k s hm h
      by_cases hc : (readSwitches (reads k) s).2 = true
      · simp only [rainbowRun, if_pos hc]
        refine ⟨by simp, ?_⟩
        rw [readSwitches_changed_mode (reads k) s hc]
        rcases hm with hm | hm <;> simp [hm]
      · simp only [rainbowRun, if_neg hc] at h ⊢
        have hmode := readSwitches_unchanged_mode (reads k) s (by simpa using hc)
        have hm1 : (readSwitches (reads k) s).1.mode = 0 ∨
            (readSwitches (reads k) s).1.mode = 1 := by rw [hmode]; exact hm
        obtain ⟨hl, hmo⟩ := ih (k + 1) (readSwitches (reads k) s).1 hm1 h
        exact ⟨by simpa using Nat.succ_lt_succ hl, by rw [hmo, hmode]⟩

lemma rainbowRun_high_mode0_no_abort (reads : Nat → Nat → Level)
    (hH : ∀ t, reads t MODE_PIN = Level.HIGH) :
    ∀ (fuel k : Nat) (s : MenorahState), s.mode = 0 →
      (rainbowRun reads fuel k s).2.2 = false ∧ (rainbowRun reads fuel k s).1.mode = 0 := by
  intro fuel
  induction fuel with
  | zero => intro k s hm; exact ⟨rfl, hm⟩
  | succ n ih =>
      intro k s hm
      have hset : modeSettled (reads k MODE_PIN) s.mode := by
        rw [hH k]
        exact ⟨fun hlh => absurd hlh (by decide), fun _ => by omega⟩
      obtain ⟨hfalse, hkeep⟩ := readSwitches_settled (reads k) s hset
      have hc : ¬ ((readSwitches (reads k) s).2 = true) := by simp [hfalse]
      simp only [rainbowRun, if_neg hc]
      exact ih (k + 1) (readSwitches (reads k) s).1 (by rw [hkeep]; exact hm)

lemma hueOffsets_mono : ∀ i j : Fin 9, i < j → i.val * 65536 / 9 < j.val * 65536 / 9 := by
  decide

/-! ## Claims -/

/-- C1: the spec's Switch Reader contract says each candle's `state` becomes
true iff its pin reads `LOW`.  The code instead forces every `state` to `true`
(line 169): with every pin reading `HIGH`, after `readSwitches` every candle's
`state` is still `true`, although no pin reads `LOW`. -/
theorem readSwitches_forces_state_true :
    ((readSwitches (fun _ => Level.HIGH) initialState).1.candles.map (fun c => c.state)) =
      List.replicate LED_COUNT true ∧
    (fun _ => Level.HIGH : Nat → Level) A0 ≠ Level.LOW := by
  decide

/-- C2: the spec says that in flicker mode with all switches off (all pins
`HIGH`) every pixel flushed is `(0,0,0)`.  Evaluating one throttled flicker
tick at that input, every pixel pushed is the flame colour `(96, 255, 12)`
(green, red, blue call order), not `(0,0,0)`, because `readSwitches` forces
every candle on. -/
theorem flicker_all_switches_open_not_dark :
    (flickerTick (fun _ => Level.HIGH) (fun _ => 0) initialState).2 =
      List.replicate LED_COUNT (Pixel.mk 96 255 12) ∧
    Pixel.mk 96 255 12 ≠ Pixel.mk 0 0 0 := by
  decide

/-- C3 counterexample: the claim says a freshly drawn countdown duration lies
in `[0, 50)`.  At a concrete reset (`delay = 0`, any rng) the drawn countdown
is `random(50, 50) = 50`, which is not `< 50`. -/
theorem flicker_reset_delay_counterexample :
    (flickerStep (fun _ => 0) 0 ⟨255, 96, 12, 0, 0, 0⟩).1.delay = 50 ∧
    ¬ ((flickerStep (fun _ => 0) 0 ⟨255, 96, 12, 0, 0, 0⟩).1.delay < 50) := by
  decide

/-- C3 (amended): on a reset, the newly drawn countdown duration is always
exactly 50 (`flickerDelayLow = flickerDelayHigh = 50`), and the newly drawn
flicker magnitude lies in `[0, 40)`. -/
theorem flicker_reset_delay_and_magnitude (rng : Nat → Nat) (k : Nat) (f : FlickerLed)
    (h : f.delay ≤ 0) :
    (flickerStep rng k f).1.delay = 50 ∧
    0 ≤ (flickerStep rng k f).1.flicker ∧ (flickerStep rng k f).1.flicker < 40 := by
  obtain ⟨-, -, -, hd, hf, -⟩ := flickerStep_reset rng k f h
  exact ⟨hd, hf ▸ flickerMag_nonneg rng k, hf ▸ flickerMag_lt rng k⟩

/-- Witness for `flicker_reset_delay_and_magnitude` at a concrete reset. -/
theorem flicker_reset_delay_and_magnitude_witness :
    (flickerStep (fun _ => 7) 0 ⟨255, 96, 12, 0, 0, 0⟩).1.delay = 50 ∧
    0 ≤ (flickerStep (fun _ => 7) 0 ⟨255, 96, 12, 0, 0, 0⟩).1.flicker ∧
    (flickerStep (fun _ => 7) 0 ⟨255, 96, 12, 0, 0, 0⟩).1.flicker < 40 :=
  flicker_reset_delay_and_magnitude (fun _ => 7) 0 ⟨255, 96, 12, 0, 0, 0⟩ (by decide)

/-- C7: after a colour reset, every channel is non-negative, whatever magnitude
was drawn (the clamp at lines 221-223 guarantees it). -/
theorem flicker_reset_channels_nonneg (rng : Nat → Nat) (k : Nat) (f : FlickerLed)
    (h : f.delay ≤ 0) :
    0 ≤ (flickerStep rng k f).1.red ∧
    0 ≤ (flickerStep rng k f).1.green ∧
    0 ≤ (flickerStep rng k f).1.blue := by
  obtain ⟨hr, hg, hb, -, -, -⟩ := flickerStep_reset rng k f h
  have hlt := flickerMag_lt rng k
  have hnn := flickerMag_nonneg rng k
  rw [hr, hg, hb]
  unfold flickerStartRed flickerStartGreen flickerStartBlue
  omega

/-- Witness for `flicker_reset_channels_nonneg` at a concrete reset whose drawn
magnitude (39) exceeds the blue base value (12). -/
theorem flicker_reset_channels_nonneg_witness :
    0 ≤ (flickerStep (fun _ => 39) 0 ⟨255, 96, 12, 0, 0, 0⟩).1.red ∧
    0 ≤ (flickerStep (fun _ => 39) 0 ⟨255, 96, 12, 0, 0, 0⟩).1.green ∧
    0 ≤ (flickerStep (fun _ => 39) 0 ⟨255, 96, 12, 0, 0, 0⟩).1.blue :=
  flicker_reset_channels_nonneg (fun _ => 39) 0 ⟨255, 96, 12, 0, 0, 0⟩ (by decide)

/-- C8: per LED on a throttled tick: a resetting LED's new channels are
`max 0 (base − magnitude)` for bases `(255, 96, 12)`; the pushed pixel is the
colour in `(green, red, blue)` call order when the candle's state is true and
zero otherwise; and the countdown is decremented by 1 regardless of reset. -/
theorem flicker_per_led_tick (st : Bool) (rng : Nat → Nat) (k : Nat) (f : FlickerLed) :
    ((flickerLedTick st rng k f).2.1 =
      if st then
        Pixel.mk (flickerStep rng k f).1.green (flickerStep rng k f).1.red
          (flickerStep rng k f).1.blue
      else Pixel.mk 0 0 0) ∧
    (flickerLedTick st rng k f).1.delay = (flickerStep rng k f).1.delay - 1 ∧
    (f.delay ≤ 0 →
      (flickerStep rng k f).1.red =
        max 0 (flickerStartRed - (flickerStep rng k f).1.flicker) ∧
      (flickerStep rng k f).1.green =
        max 0 (flickerStartGreen - (flickerStep rng k f).1.flicker) ∧
      (flickerStep rng k f).1.blue =
        max 0 (flickerStartBlue - (flickerStep rng k f).1.flicker)) := by
  refine ⟨by simp [flickerLedTick], by simp [flickerLedTick], fun h => ?_⟩
  obtain ⟨hr, hg, hb, -, hf, -⟩ := flickerStep_reset rng k f h
  have hlt := flickerMag_lt rng k
  have hnn := flickerMag_nonneg rng k
  rw [hr, hg, hb, hf]
  unfold flickerStartRed flickerStartGreen flickerStartBlue
  refine ⟨by omega, by omega, by omega⟩

/-- Witness for `flicker_per_led_tick` at a concrete resetting LED with its
switch on. -/
theorem flicker_per_led_tick_witness :
    ((flickerLedTick true (fun _ => 13) 0 ⟨255, 96, 12, 0, 0, 0⟩).2.1 =
      if true then
        Pixel.mk (flickerStep (fun _ => 13) 0 ⟨255, 96, 12, 0, 0, 0⟩).1.green
          (flickerStep (fun _ => 13) 0 ⟨255, 96, 12, 0, 0, 0⟩).1.red
          (flickerStep (fun _ => 13) 0 ⟨255, 96, 12, 0, 0, 0⟩).1.blue
      else Pixel.mk 0 0 0) ∧
    (flickerLedTick true (fun _ => 13) 0 ⟨255, 96, 12, 0, 0, 0⟩).1.delay =
      (flickerStep (fun _ => 13) 0 ⟨255, 96, 12, 0, 0, 0⟩).1.delay - 1 ∧
    ((⟨255, 96, 12, 0, 0, 0⟩ : FlickerLed).delay ≤ 0 →
      (flickerStep (fun _ => 13) 0 ⟨255, 96, 12, 0, 0, 0⟩).1.red =
        max 0 (flickerStartRed -
          (flickerStep (fun _ => 13) 0 ⟨255, 96, 12, 0, 0, 0⟩).1.flicker) ∧
      (flickerStep (fun _ => 13) 0 ⟨255, 96, 12, 0, 0, 0⟩).1.green =
        max 0 (flickerStartGreen -
          (flickerStep (fun _ => 13) 0 ⟨255, 96, 12, 0, 0, 0⟩).1.flicker) ∧
      (flickerStep (fun _ => 13) 0 ⟨255, 96, 12, 0, 0, 0⟩).1.blue =
        max 0 (flickerStartBlue -
          (flickerStep (fun _ => 13) 0 ⟨255, 96, 12, 0, 0, 0⟩).1.flicker)) :=
  flicker_per_led_tick true (fun _ => 13) 0 ⟨255, 96, 12, 0, 0, 0⟩

/-- C10: the drawn magnitude is `< 40`, so the red (base 255) and green
(base 96) channels are positive before clamping — their clamp branches never
fire, and the stored values are the unclamped differences — while the blue
channel (base 12) can go negative before its clamp (e.g. a raw draw of 13
gives magnitude 13 and `12 - 13 < 0`). -/
theorem flicker_clamp_only_blue (rng : Nat → Nat) (k : Nat) (f : FlickerLed)
    (h : f.delay ≤ 0) :
    (flickerStep rng k f).1.flicker < 40 ∧
    0 < flickerStartRed - (flickerStep rng k f).1.flicker ∧
    0 < flickerStartGreen - (flickerStep rng k f).1.flicker ∧
    (flickerStep rng k f).1.red = flickerStartRed - (flickerStep rng k f).1.flicker ∧
    (flickerStep rng k f).1.green = flickerStartGreen - (flickerStep rng k f).1.flicker ∧
    flickerStartBlue - ((arduinoRandomRange 13 flickerFlickerLow flickerFlickerHigh : Nat) : Int)
      < 0 := by
  obtain ⟨hr, hg, -, -, hf, -⟩ := flickerStep_reset rng k f h
  have hlt := flickerMag_lt rng k
  have hnn := flickerMag_nonneg rng k
  rw [hr, hg, hf]
  unfold flickerStartRed flickerStartGreen
  exact ⟨hlt, by omega, by omega, rfl, rfl, by decide⟩

/-- C4: mode toggling is edge-triggered.  If the mode-select line holds the
same level `v` across a whole sequence of `readSwitches` calls, then every
call after the first returns `false` (so in particular every call after the
first detected transition does) and leaves the mode flag unchanged. -/
theorem mode_toggle_edge_triggered (reads : Nat → Nat → Level) (s : MenorahState)
    (v : Level) (hv : ∀ t, reads t MODE_PIN = v) (n : Nat) (hn : 1 ≤ n) :
    (readSwitches (reads n) (readSwitchesSeq reads s n)).2 = false ∧
    (readSwitchesSeq reads s (n + 1)).mode = (readSwitchesSeq reads s n).mode := by
  obtain ⟨m, rfl⟩ : ∃ m, n = m + 1 := ⟨n - 1, by omega⟩
  have hA : modeSettled v (readSwitchesSeq reads s (m + 1)).mode := by
    have h := mode_settled_after (reads m) (readSwitchesSeq reads s m)
    rw [hv m] at h
    exact h
  have hA2 : modeSettled (reads (m + 1) MODE_PIN)
      (readSwitchesSeq reads s (m + 1)).mode := by
    rw [hv (m + 1)]; exact hA
  have hB := readSwitches_settled (reads (m + 1)) (readSwitchesSeq reads s (m + 1)) hA2
  exact ⟨hB.1, hB.2⟩

/-- Witness for `mode_toggle_edge_triggered`: constant `HIGH` environment,
second call. -/
theorem mode_toggle_edge_triggered_witness :
    (readSwitches ((fun _ _ => Level.HIGH) 1)
      (readSwitchesSeq (fun _ _ => Level.HIGH) initialState 1)).2 = false ∧
    (readSwitchesSeq (fun _ _ => Level.HIGH) initialState 2).mode =
      (readSwitchesSeq (fun _ _ => Level.HIGH) initialState 1).mode :=
  mode_toggle_edge_triggered (fun _ _ => Level.HIGH) initialState Level.HIGH
    (fun _ => rfl) 1 (by decide)

/-- C5: when no `readSwitches` call during the sweep reports a mode change,
`rainbow` runs exactly `5 * 65536 / 256 = 1280` frame steps and returns. -/
theorem rainbow_full_sweep (reads : Nat → Nat → Level) (s : MenorahState)
    (h : (rainbow reads s).2.2 = false) :
    (rainbow reads s).2.1.length = 5 * 65536 / 256 := by
  unfold rainbow at h ⊢
  rw [rainbowRun_no_abort_length reads 1280 0 s h]

/-- Witness for `rainbow_full_sweep`: constant `HIGH` pins and flicker mode, so
no call reports a change and all 1280 frames are flushed. -/
theorem rainbow_full_sweep_witness :
    (rainbow (fun _ _ => Level.HIGH) initialState).2.2 = false ∧
    (rainbow (fun _ _ => Level.HIGH) initialState).2.1.length = 5 * 65536 / 256 := by
  have hab := (rainbowRun_high_mode0_no_abort (fun _ _ => Level.HIGH) (fun _ => rfl)
    1280 0 initialState rfl).1
  exact ⟨hab, rainbow_full_sweep _ _ hab⟩

/-- C6: if some `readSwitches` call during the sweep reports a mode change,
`rainbow` flushes strictly fewer than 1280 frames (nothing after the aborting
call) and returns with the mode flag holding the opposite mode. -/
theorem rainbow_abort_early (reads : Nat → Nat → Level) (s : MenorahState)
    (hm : s.mode = 0 ∨ s.mode = 1) (h : (rainbow reads s).2.2 = true) :
    (rainbow reads s).2.1.length < 5 * 65536 / 256 ∧
    (rainbow reads s).1.mode = 1 - s.mode :=
  rainbowRun_abort_facts reads 1280 0 s hm h

/-- Witness for `rainbow_abort_early`: rainbow mode with the mode pin `HIGH`
aborts on the first frame and flips the mode back to flicker. -/
theorem rainbow_abort_early_witness :
    (rainbow (fun _ _ => Level.HIGH) { initialState with mode := 1 }).2.1.length
        < 5 * 65536 / 256 ∧
    (rainbow (fun _ _ => Level.HIGH) { initialState with mode := 1 }).1.mode =
      1 - ({ initialState with mode := 1 } : MenorahState).mode :=
  rainbow_abort_early (fun _ _ => Level.HIGH) { initialState with mode := 1 }
    (Or.inr rfl) (by rfl)

/-- C9: in every rainbow frame the hue pushed for LED `i` exceeds the frame's
base hue by exactly `i * 65536 / 9`: LED 0's offset is 0, offsets are strictly
increasing along the strip, and LED 8's offset stays below a full wheel
rotation of 65536. -/
theorem rainbow_hue_offsets (fph : Nat) (i j : Fin 9) (hij : i < j) :
    rainbowPixelHue fph i.val - fph = i.val * 65536 / 9 ∧
    rainbowPixelHue fph 0 = fph ∧
    rainbowPixelHue fph i.val < rainbowPixelHue fph j.val ∧
    rainbowPixelHue fph 8 - fph < 65536 := by
  have hmono := hueOffsets_mono i j hij
  unfold rainbowPixelHue numPixels LED_COUNT
  exact ⟨by omega, by omega, by omega, by omega⟩

/-- Witness for `rainbow_hue_offsets` at base hue 0 and LEDs 0 < 1. -/
theorem rainbow_hue_offsets_witness :
    rainbowPixelHue 0 0 - 0 = 0 * 65536 / 9 ∧
    rainbowPixelHue 0 0 = 0 ∧
    rainbowPixelHue 0 0 < rainbowPixelHue 0 1 ∧
    rainbowPixelHue 0 8 - 0 < 65536 :=
  rainbow_hue_offsets 0 0 1 (by decide)

/-- Witness for `flicker_clamp_only_blue` at a concrete reset. -/
theorem flicker_clamp_only_blue_witness :
    (flickerStep (fun _ => 25) 0 ⟨255, 96, 12, 0, 0, 0⟩).1.flicker < 40 ∧
    0 < flickerStartRed - (flickerStep (fun _ => 25) 0 ⟨255, 96, 12, 0, 0, 0⟩).1.flicker ∧
    0 < flickerStartGreen - (flickerStep (fun _ => 25) 0 ⟨255, 96, 12, 0, 0, 0⟩).1.flicker ∧
    (flickerStep (fun _ => 25) 0 ⟨255, 96, 12, 0, 0, 0⟩).1.red =
      flickerStartRed - (flickerStep (fun _ => 25) 0 ⟨255, 96, 12, 0, 0, 0⟩).1.flicker ∧
    (flickerStep (fun _ => 25) 0 ⟨255, 96, 12, 0, 0, 0⟩).1.green =
      flickerStartGreen - (flickerStep (fun _ => 25) 0 ⟨255, 96, 12, 0, 0, 0⟩).1.flicker ∧
    flickerStartBlue - ((arduinoRandomRange 13 flickerFlickerLow flickerFlickerHigh : Nat) : Int)
      < 0 :=
  flicker_clamp_only_blue (fun _ => 25) 0 ⟨255, 96, 12, 0, 0, 0⟩ (by decide)

end Menorah
